import Mathlib

/-!
Shallow embedding of the request/response core of `srcomapi` (file
`srcomapi/srcomapi.py`): pagination aggregation in `SpeedrunCom.get`,
the mock-mode cache path, the authentication guards of the write
methods, and the validation logic of `submit_run`,
`update_run_status` and `update_run_players`.

The network is abstracted: a live response is a `Response` value, and
the successive responses returned by the follow-up GETs of the
pagination loop are supplied as a list (`chain`), its n-th element
being what the n-th follow-up request returns.  Raised Python
exceptions are explicit result constructors.
-/

namespace Srcomapi

/-- A Python value as far as `update_run_status` needs one: the
`status` argument is compared with `==` against the tuple
`("rejected", "verified", "new")`, so strings and tuples must both be
representable. -/
inductive PyVal where
  | pstr (s : String)
  | ptuple (elems : List PyVal)
  deriving Repr

/-- Python `==` on `PyVal`: strings compare by content, tuples
elementwise; a string never equals a tuple. -/
def pyEq : PyVal → PyVal → Bool
  | .pstr a, .pstr b => a == b
  | .ptuple [], .ptuple [] => true
  | .ptuple (a :: as), .ptuple (b :: bs) => pyEq a b && pyEq (.ptuple as) (.ptuple bs)
  | _, _ => false

/-- Pagination metadata of a response envelope: the `size` and `max`
fields read by the loop in `SpeedrunCom.get`.  The `links` list is
abstracted away: follow-up responses are supplied directly as a
chain. -/
structure Pagination where
  size : Nat
  max : Nat
  deriving Repr, DecidableEq

/-- A parsed HTTP response: its status code and the JSON body's
optional `data` and `pagination` fields (absence of a field makes the
corresponding Python dictionary lookup raise `KeyError`). -/
structure Response (α : Type) where
  status_code : Nat
  data : Option (List α)
  pagination : Option Pagination
  deriving Repr, DecidableEq

/-- The `http.client.responses` table, restricted to the codes used
here. -/
def reasonPhrase : Nat → String
  | 400 => "Bad Request"
  | 401 => "Unauthorized"
  | 403 => "Forbidden"
  | 404 => "Not Found"
  | 500 => "Internal Server Error"
  | _ => ""

/-- The pagination loop of `SpeedrunCom.get` (lines 74-81 and 94-101
of `srcomapi.py`): while `size == max`, fetch the next response from
the chain, refresh `size`/`max` from it, then extend `data` with its
`data` field.  The whole loop body runs inside `try ... except
KeyError: pass`, so a follow-up response without a `pagination` field
aborts the loop before its `data` is appended, and one without a
`data` field aborts it after the refresh. -/
def paginate {α : Type} (p : Pagination) (chain : List (Response α)) (acc : List α) :
    List α :=
  if p.size = p.max then
    match chain with
    | [] => acc
    | r :: rs =>
      match r.pagination with
      | none => acc
      | some p' =>
        match r.data with
        | none => acc
        | some d => paginate p' rs (acc ++ d)
  else acc

/-- Errors raised by the non-mock `SpeedrunCom.get`:
`APIRequestException` for a status code of 400 or more, and an
uncaught `KeyError` when the body of a non-error response has no
`data` field. -/
inductive GetError where
  | requestError (status_code : Nat) (reason_phrase : String) (endpoint : String)
  | keyError (key : String)
  deriving Repr, DecidableEq

/-- The full aggregation of a response's `data` field `d`: when a
`pagination` field is present the pagination loop extends `d`,
otherwise the `KeyError` of the missing field is caught at once and
`d` stands (lines 71-81 and 91-101). -/
def aggregated {α : Type} (first : Response α) (chain : List (Response α)) (d : List α) :
    List α :=
  match first.pagination with
  | none => d
  | some p => paginate p chain d

/-- The non-mock path of `SpeedrunCom.get` (lines 86-102): raise on
status 400 or more, read `data`, then run the pagination loop when a
`pagination` field is present. -/
def get {α : Type} (endpoint : String) (first : Response α) (chain : List (Response α)) :
    Except GetError (List α) :=
  if 400 ≤ first.status_code then
    .error (.requestError first.status_code (reasonPhrase first.status_code) endpoint)
  else
    match first.data with
    | none => .error (.keyError "data")
    | some d => .ok (aggregated first chain d)

/-- The JSON envelope persisted by the mock path: the first response's
body with its `data` field replaced by the fully concatenated data
(`json_to_write`, lines 69 and 82-83). -/
structure CacheEntry (α : Type) where
  data : List α
  pagination : Option Pagination
  deriving Repr, DecidableEq

/-- Outcome of a mock-mode `SpeedrunCom.get` (lines 56-85).
`hit` is served from the cache file with no network call; `fetched`
performed a live fetch and persisted the envelope; `requestError` is
the raised `APIRequestException` of the 404 branch (no file is
touched); `keyErrorFileCreated` is the uncaught `KeyError` raised
while the cache file is already open for writing, leaving a created
file behind. -/
inductive MockOutcome (α : Type) where
  | hit (data : List α)
  | fetched (data : List α) (written : CacheEntry α)
  | requestError (status_code : Nat) (reason_phrase : String) (endpoint : String)
  | keyErrorFileCreated (key : String)
  deriving Repr, DecidableEq

/-- Whether the outcome left a cache file on disk (the write branch
opens the file with mode `"wb"` before reading the body, so even the
`KeyError` outcome leaves a created file). -/
def fileCreated {α : Type} : MockOutcome α → Bool
  | .fetched _ _ => true
  | .keyErrorFileCreated _ => true
  | _ => false

/-- Python `str.split(sep)` for a one-character separator, working
through the character list: each separator occurrence closes the
current segment, and `"".split(sep)` is `[""]`. -/
def pySplitAux (sep : Char) : List Char → List Char → List String
  | [], acc => [String.mk acc.reverse]
  | c :: cs, acc =>
    if c = sep then String.mk acc.reverse :: pySplitAux sep cs []
    else pySplitAux sep cs (c :: acc)

/-- Python `endpoint.split(sep)`. -/
def pySplit (sep : Char) (s : String) : List String :=
  pySplitAux sep s.toList []

/-- Key derivation of the mock store (line 57):
`".".join(endpoint.split("/")[0::2])`.  `everyOther` is the slice
`[0::2]`, the elements at even positions. -/
def everyOther {α : Type} : List α → List α
  | [] => []
  | [a] => [a]
  | a :: _ :: rest => a :: everyOther rest

/-- The mock cache key of an endpoint (line 57 of `srcomapi.py`). -/
def mock_endpoint (endpoint : String) : String :=
  String.intercalate "." (everyOther (pySplit '/' endpoint))

/-- The mock-mode path of `SpeedrunCom.get` (lines 56-85).  `cache` is
the content of the cache file for the derived key, if one exists;
`first` is what a live GET on the endpoint would return and `chain`
the follow-up responses of its pagination links. -/
def mockGet {α : Type} (cache : Option (CacheEntry α)) (endpoint : String)
    (first : Response α) (chain : List (Response α)) : MockOutcome α :=
  match cache with
  | some entry => .hit entry.data
  | none =>
    if first.status_code ≠ 404 then
      match first.data with
      | none => .keyErrorFileCreated "data"
      | some d =>
        .fetched (aggregated first chain d) ⟨aggregated first chain d, first.pagination⟩
    else
      .requestError first.status_code (reasonPhrase first.status_code) endpoint

/-- Client configuration relevant to the write guards: the API key
and the mock flag. -/
structure Config where
  api_key : Option String
  mock : Bool
  deriving Repr, DecidableEq

/-- Python truthiness of `self.api_key` as tested by
`if not self.api_key`: `None` and the empty string are falsy. -/
def keyFalsy : Option String → Bool
  | none => true
  | some s => s == ""

/-- Outcome of a write method (`post`, `put`, `delete`).  `mockNoop`
is the early `return` of mock mode (line 116/145/172), `authRequired`
the `APIAuthenticationRequired` raised before any network call,
`requestError` the raised `APIRequestException` on a remote status of
400 or more, `keyError` an uncaught missing `data` field, and `ok`
the returned data. -/
inductive WriteResult (α : Type) where
  | mockNoop
  | authRequired
  | requestError (status_code : Nat) (reason_phrase : String) (endpoint : String)
  | keyError (key : String)
  | ok (data : List α)
  deriving Repr, DecidableEq

/-- Shared tail of the write methods: response handling after the
request was sent. -/
def writeResponse {α : Type} (endpoint : String) (resp : Response α) : WriteResult α :=
  if 400 ≤ resp.status_code then
    .requestError resp.status_code (reasonPhrase resp.status_code) endpoint
  else
    match resp.data with
    | none => .keyError "data"
    | some d => .ok d

/-- `SpeedrunCom.post` (lines 104-131): the mock no-op comes first,
then the authentication guard, and only then the network call whose
response is `resp`. -/
def post {α : Type} (cfg : Config) (endpoint : String) (resp : Response α) :
    WriteResult α :=
  if cfg.mock then .mockNoop
  else if keyFalsy cfg.api_key then .authRequired
  else writeResponse endpoint resp

/-- `SpeedrunCom.put` (lines 133-160): same guard order as `post`. -/
def put {α : Type} (cfg : Config) (endpoint : String) (resp : Response α) :
    WriteResult α :=
  if cfg.mock then .mockNoop
  else if keyFalsy cfg.api_key then .authRequired
  else writeResponse endpoint resp

/-- `SpeedrunCom.delete` (lines 162-187): same guard order as
`post`. -/
def delete {α : Type} (cfg : Config) (endpoint : String) (resp : Response α) :
    WriteResult α :=
  if cfg.mock then .mockNoop
  else if keyFalsy cfg.api_key then .authRequired
  else writeResponse endpoint resp

/-- A value of the `times` dictionary in `submit_run`.  The assertion
at line 293 accepts exactly values whose Python type is `float` or
`int` (`type(True) is int` is false, so booleans are rejected). -/
inductive TimeVal where
  | intV (n : Int)
  | floatV (q : Rat)
  | strV (s : String)
  | boolV (b : Bool)
  deriving Repr, DecidableEq

/-- Whether `type(v) is float or type(v) is int` holds. -/
def TimeVal.isNumeric : TimeVal → Bool
  | .intV _ => true
  | .floatV _ => true
  | _ => false

/-- An entry of the `players` list: either a `DataType.User` instance
or a Python dictionary (string keys and values, as the assertions at
lines 304-305 require). -/
inductive Player where
  | userObj (id : String)
  | pdict (entries : List (String × String))
  deriving Repr, DecidableEq

/-- The loop-local conversion at lines 300-301 and 377-378: a `User`
entry is replaced, in the loop variable only, by the dictionary
`{"rel": "user", "id": player.id}` before being validated. -/
def Player.toDict : Player → List (String × String)
  | .userObj id => [("rel", "user"), ("id", id)]
  | .pdict es => es

/-- Exceptions raised by the validation code: the `AttributeError`
variants carry the `name=` given at the raise site, `requestError` is
an `APIRequestException` escaping from the `get_user` lookup, and the
last two are raised by `update_run_status`. -/
inductive SubmitError where
  | noCategory
  | noTimes
  | noPlatform
  | invalidTimerType (k : String)
  | invalidTimerValue (k : String)
  | invalidPlayerType (v : String)
  | noPlayerFound (id : String)
  | invalidPlayersDictionaryKey (k : String)
  | invalidVariableValueType (v : String)
  | invalidVariableValueKey (k : String)
  | requestError (status_code : Nat) (reason_phrase : String) (endpoint : String)
  | invalidStatus
  | reasonNotRejected
  deriving Repr, DecidableEq

/-- What `get_user` can evaluate to when it returns:
`DataType.User(self, data=self.get("users/" + id))` constructs a
`User` instance unconditionally, so the only other possibility is the
exception raised inside `self.get`. -/
inductive UserResult where
  | userInstance (id : String)
  deriving Repr, DecidableEq

/-- The `isinstance(..., DataType.User)` test at lines 310 and 387. -/
def UserResult.isUserInstance : UserResult → Bool
  | .userInstance _ => true

/-- `SpeedrunCom.get_user` during validation.  The call
`self.get("users/" + id)` (in `src`) raises `APIRequestException`
when the remote answers with status 404, i.e. when the user does not
exist; `userExists` abstracts that remote state.  Modelled from the
spec: the entity layer (`srcomapi.datatypes`, not under `src/`) is a
thin structural wrapper, so `DataType.User(self, data=...)`
constructs and returns a `User` instance whenever `get` returned
data. -/
def get_user (userExists : String → Bool) (id : String) :
    Except SubmitError UserResult :=
  if userExists id then .ok (.userInstance id)
  else .error (.requestError 404 (reasonPhrase 404) ("users/" ++ id))

/-- The inner key/value loop over one player dictionary (lines
303-315 and 380-392).  Returns the list of user-lookup endpoints hit
(network GETs issued by `get_user`) together with the first raised
exception, if any. -/
def checkEntries (userExists : String → Bool) :
    List (String × String) → List String × Option SubmitError
  | [] => ([], none)
  | (k, v) :: rest =>
    if k = "rel" then
      if ¬(v = "user" ∨ v = "guest") then ([], some (.invalidPlayerType v))
      else checkEntries userExists rest
    else if k = "id" then
      match get_user userExists v with
      | .error e => ([("users/" ++ v)], some e)
      | .ok u =>
        if ¬ u.isUserInstance then ([("users/" ++ v)], some (.noPlayerFound v))
        else
          let (tr, r) := checkEntries userExists rest
          (("users/" ++ v) :: tr, r)
    else if k = "name" then checkEntries userExists rest
    else ([], some (.invalidPlayersDictionaryKey k))

/-- The outer loop over the `players` list (lines 299-315 and
376-392), each entry first subjected to the loop-local `User`
conversion. -/
def checkPlayers (userExists : String → Bool) :
    List Player → List String × Option SubmitError
  | [] => ([], none)
  | p :: ps =>
    match checkEntries userExists p.toDict with
    | (tr, some e) => (tr, some e)
    | (tr, none) =>
      match checkPlayers userExists ps with
      | (tr', r) => (tr ++ tr', r)

/-- The `times` dictionary loop (lines 288-294): per entry, the key
must be a recognized timer kind, then the value must be numeric. -/
def checkTimes : List (String × TimeVal) → Option SubmitError
  | [] => none
  | (k, v) :: rest =>
    if ¬(k = "realtime" ∨ k = "realtime_noloads" ∨ k = "ingame") then
      some (.invalidTimerType k)
    else if ¬ v.isNumeric then some (.invalidTimerValue k)
    else checkTimes rest

/-- The inner loop over one variable's value dictionary (lines
323-332). -/
def checkValueDict : List (String × String) → Option SubmitError
  | [] => none
  | (key, val) :: rest =>
    if key = "type" then
      if ¬(val = "pre-defined" ∨ val = "user-defined") then
        some (.invalidVariableValueType val)
      else checkValueDict rest
    else if key = "value" then checkValueDict rest
    else some (.invalidVariableValueKey key)

/-- The outer loop over the `variables` dictionary (lines 320-332). -/
def checkVariables : List (String × List (String × String)) → Option SubmitError
  | [] => none
  | (_, vd) :: rest =>
    match checkValueDict vd with
    | some e => some e
    | none => checkVariables rest

/-- The arguments of `submit_run`.  `none` in the first three fields
models the `...` (Ellipsis) default, i.e. the argument being absent;
in the other optional fields it models `None`. -/
structure SubmitArgs where
  category : Option String
  platform : Option String
  times : Option (List (String × TimeVal))
  level : Option String
  date : Option String
  region : Option String
  players : Option (List Player)
  video : Option String
  comment : Option String
  splitsio : Option String
  runVariables : Option (List (String × List (String × String)))
  verified : Bool
  emulated : Bool
  deriving Repr, DecidableEq

/-- The `runData` dictionary handed to `self.post("runs", {"run":
runData})`.  `players` and `variables` are present only when the
corresponding argument was truthy (a non-empty list); scalar fields
are copied verbatim when not `None` by the loop at lines 335-343. -/
structure RunData where
  times : List (String × TimeVal)
  players : Option (List Player)
  runVariables : Option (List (String × List (String × String)))
  category : Option String
  platform : Option String
  level : Option String
  date : Option String
  region : Option String
  video : Option String
  comment : Option String
  splitsio : Option String
  verified : Bool
  emulated : Bool
  deriving Repr, DecidableEq

/-- The POST request `submit_run` ends in: endpoint `"runs"` with the
body `{"run": runData}`. -/
structure PostRequest where
  endpoint : String
  run : RunData
  deriving Repr, DecidableEq

/-- Python truthiness of an optional list argument, as tested by
`if players:` and `if variables:`: `None` and the empty list are
falsy. -/
def listTruthy {α : Type} : Option (List α) → Bool
  | none => false
  | some [] => false
  | some (_ :: _) => true

/-- `SpeedrunCom.submit_run` (lines 237-345) up to the handing of the
request to the write path.  The first component is the list of
network GETs issued by `get_user` lookups during validation; the
second is either the first raised exception or the request that is
handed to `self.post`.  A raised exception aborts the function, so an
error outcome carries no request. -/
def submit_run (userExists : String → Bool) (a : SubmitArgs) :
    List String × Except SubmitError PostRequest :=
  if a.category.isNone then ([], .error .noCategory)
  else if a.times.isNone then ([], .error .noTimes)
  else if a.platform.isNone then ([], .error .noPlatform)
  else
    match checkTimes (a.times.getD []) with
    | some e => ([], .error e)
    | none =>
      match (if listTruthy a.players then checkPlayers userExists (a.players.getD [])
          else ([], none)) with
      | (tr, some e) => (tr, .error e)
      | (tr, none) =>
        match (if listTruthy a.runVariables then checkVariables (a.runVariables.getD [])
            else none) with
        | some e => (tr, .error e)
        | none =>
          (tr, .ok
            { endpoint := "runs"
              run :=
                { times := a.times.getD []
                  players := if listTruthy a.players then a.players else none
                  runVariables := if listTruthy a.runVariables then a.runVariables else none
                  category := a.category
                  platform := a.platform
                  level := a.level
                  date := a.date
                  region := a.region
                  video := a.video
                  comment := a.comment
                  splitsio := a.splitsio
                  verified := a.verified
                  emulated := a.emulated } })

/-- The tuple `("rejected", "verified", "new")` at line 356. -/
def validStatuses : PyVal :=
  .ptuple [.pstr "rejected", .pstr "verified", .pstr "new"]

/-- The PUT request `update_run_status` ends in: endpoint
`"runs/{runId}/status"` with body `{"status": {"status": status}}`,
plus a `reason` field when one was supplied. -/
structure StatusPutRequest where
  endpoint : String
  status : PyVal
  reason : Option String
  deriving Repr

/-- Python truthiness of the optional `reason` string, as tested by
`if reason:`: `None` and the empty string are falsy. -/
def strTruthy : Option String → Bool
  | none => false
  | some s => ¬(s == "")

/-- `SpeedrunCom.update_run_status` (lines 347-364) up to the handing
of the request to the write path.  Line 356 tests
`not status == ("rejected", "verified", "new")`, a comparison of the
status against the whole tuple. -/
def update_run_status (runId : String) (status : PyVal) (reason : Option String) :
    Except SubmitError StatusPutRequest :=
  if ¬ pyEq status validStatuses then .error .invalidStatus
  else if strTruthy reason then
    if ¬ pyEq status (.pstr "rejected") then .error .reasonNotRejected
    else .ok { endpoint := "runs/" ++ runId ++ "/status", status := status, reason := reason }
  else .ok { endpoint := "runs/" ++ runId ++ "/status", status := status, reason := none }

/-- The PUT request `update_run_players` ends in: endpoint
`"runs/{runId}/players"` with body `{"players": players}`. -/
structure PlayersPutRequest where
  endpoint : String
  players : List Player
  deriving Repr, DecidableEq

/-- `SpeedrunCom.update_run_players` (lines 366-394) up to the
handing of the request to the write path: the same player validation
loop as `submit_run`, then a PUT whose body holds the caller's
original `players` list. -/
def update_run_players (userExists : String → Bool) (runId : String)
    (players : List Player) : List String × Except SubmitError PlayersPutRequest :=
  match checkPlayers userExists players with
  | (tr, some e) => (tr, .error e)
  | (tr, none) =>
    (tr, .ok { endpoint := "runs/" ++ runId ++ "/players", players := players })

/-- A chain of follow-up responses that the pagination loop consumes
exactly: starting from pagination metadata `p`, the loop keeps going
(`size == max`) precisely while the chain is non-empty, every
follow-up response carries both a `pagination` and a `data` field,
and the final metadata stops the loop (`size != max`) with nothing
left over. -/
def exactChain {α : Type} : Pagination → List (Response α) → Bool
  | p, [] => p.size != p.max
  | p, r :: rs =>
    (p.size == p.max) &&
      (match r.pagination, r.data with
        | some p', some _ => exactChain p' rs
        | _, _ => false)

/-- The spec's description of the cache key segments: the path
segments sitting at the even indices 0, 2, 4, ... of the split
path. -/
def evenIndexSegments (segs : List String) : List String :=
  (List.range ((segs.length + 1) / 2)).map (fun i => segs.getD (2 * i) "")

/-- Whether an exception is the `NoPlayerFound` `AttributeError` of
lines 311 and 388. -/
def SubmitError.isNoPlayerFound : SubmitError → Bool
  | .noPlayerFound _ => true
  | _ => false

/-- `isNoPlayerFound` on an optional exception. -/
def optNPF : Option SubmitError → Bool
  | some e => e.isNoPlayerFound
  | none => false

/-- `isNoPlayerFound` on the outcome of a validating call. -/
def excNPF {β : Type} : Except SubmitError β → Bool
  | .error e => e.isNoPlayerFound
  | .ok _ => false

/-- C1: the status-validity check at line 356 compares the status
argument with `==` against the tuple `("rejected", "verified",
"new")` itself, so every string status — including the documented
valid ones — fails the check and raises the invalid-status
`AttributeError` before anything else happens. -/
theorem update_run_status_string_status_always_invalid
    (runId s : String) (reason : Option String) :
    update_run_status runId (.pstr s) reason = .error .invalidStatus := by
  simp [update_run_status, pyEq, validStatuses]

/-- C4 counterexample: a write method invoked with no API key
configured but with mock mode on returns the mock no-op instead of
raising `AuthenticationRequired`, because the mock check at line
116/145/172 precedes the authentication guard. -/
theorem post_mock_mode_skips_auth_guard :
    post { api_key := none, mock := true } "runs"
      ({ status_code := 200, data := some [1], pagination := none } : Response Nat)
      = .mockNoop := rfl

/-- C4 amended: on a non-mock client with a falsy API key, each of
`post`, `put` and `delete` raises `AuthenticationRequired`, and the
outcome does not depend on any response — the guard fires before the
network call. -/
theorem write_methods_auth_guard {α : Type} (cfg : Config) (ep : String)
    (hm : cfg.mock = false) (hk : keyFalsy cfg.api_key = true) :
    ∀ resp : Response α,
      post cfg ep resp = .authRequired ∧ put cfg ep resp = .authRequired ∧
        delete cfg ep resp = .authRequired := by
  intro resp
  refine ⟨?_, ?_, ?_⟩ <;> simp [post, put, delete, hm, hk]

/-- C4 amended, witness: a concrete non-mock keyless client gets
`AuthenticationRequired` from all three write methods. -/
theorem write_methods_auth_guard_witness :
    post { api_key := none, mock := false } "runs"
        ({ status_code := 200, data := some [1], pagination := none } : Response Nat)
        = .authRequired ∧
      put { api_key := none, mock := false } "runs"
        ({ status_code := 200, data := some [1], pagination := none } : Response Nat)
        = .authRequired ∧
      delete { api_key := none, mock := false } "runs"
        ({ status_code := 200, data := some [1], pagination := none } : Response Nat)
        = .authRequired :=
  write_methods_auth_guard { api_key := none, mock := false } "runs" rfl rfl
    { status_code := 200, data := some [1], pagination := none }

/-- The reason phrase of a 404. -/
theorem reasonPhrase_404 : reasonPhrase 404 = "Not Found" := rfl

/-- C8: a mock-mode cache miss whose live response is a 404 raises
`APIRequestException` with status 404 and the endpoint, and no cache
file is written. -/
theorem mockGet_404_raises_without_caching {α : Type} (ep : String)
    (resp : Response α) (chain : List (Response α)) (h : resp.status_code = 404) :
    mockGet none ep resp chain = .requestError 404 "Not Found" ep ∧
      fileCreated (mockGet none ep resp chain) = false := by
  simp [mockGet, h, reasonPhrase_404, fileCreated]

/-- C8 witness: a concrete 404 miss on `users/x`. -/
theorem mockGet_404_raises_without_caching_witness :
    mockGet none "users/x"
        ({ status_code := 404, data := none, pagination := none } : Response Nat) []
        = .requestError 404 "Not Found" "users/x" ∧
      fileCreated (mockGet none "users/x"
        ({ status_code := 404, data := none, pagination := none } : Response Nat) [])
        = false :=
  mockGet_404_raises_without_caching "users/x"
    { status_code := 404, data := none, pagination := none } [] rfl

/-- C3 counterexample: a mock-mode cache miss whose live response has
status 500 (with a `data` field, as for any non-error-shaped body) is
not surfaced as a `RequestError` at all — the branch at line 63 only
special-cases 404, so the error response is persisted to the cache
and returned as data. -/
theorem mockGet_persists_non_404_error :
    mockGet none "users/x"
        ({ status_code := 500, data := some [7], pagination := none } : Response Nat) []
      = .fetched [7] { data := [7], pagination := none } := rfl

/-- C3 amended: on a mock-mode cache miss with remote status at least
400, only a 404 raises `APIRequestException` (without touching the
cache file); any other status takes the cache-write branch, which
creates the cache file and then either persists the envelope and
returns its data, or raises `KeyError` when the body has no `data`
field. -/
theorem mockGet_error_statuses {α : Type} (ep : String) (resp : Response α)
    (chain : List (Response α)) (h : 400 ≤ resp.status_code) :
    (resp.status_code = 404 →
      mockGet none ep resp chain = .requestError 404 "Not Found" ep ∧
        fileCreated (mockGet none ep resp chain) = false) ∧
    (resp.status_code ≠ 404 →
      fileCreated (mockGet none ep resp chain) = true ∧
        ((∃ dl entry, mockGet none ep resp chain = .fetched dl entry) ∨
          mockGet none ep resp chain = .keyErrorFileCreated "data")) := by
  constructor
  · intro h404
    constructor <;> simp [mockGet, h404, reasonPhrase_404, fileCreated]
  · intro hne
    cases hd : resp.data with
    | none =>
      simp [mockGet, hne, hd, fileCreated]
    | some d0 =>
      refine ⟨?_, Or.inl ⟨aggregated resp chain d0, ⟨aggregated resp chain d0, resp.pagination⟩, ?_⟩⟩ <;>
        simp [mockGet, hne, hd, fileCreated]

/-- C3 amended, witness: a 404 miss raises without caching, while a
500 miss creates and fills the cache file. -/
theorem mockGet_error_statuses_witness :
    (mockGet none "users/x"
        ({ status_code := 404, data := none, pagination := none } : Response Nat) []
        = .requestError 404 "Not Found" "users/x" ∧
      fileCreated (mockGet none "users/x"
        ({ status_code := 404, data := none, pagination := none } : Response Nat) [])
        = false) ∧
      (fileCreated (mockGet none "users/y"
          ({ status_code := 500, data := some [7], pagination := none } : Response Nat) [])
          = true ∧
        ((∃ dl entry,
            mockGet none "users/y"
                ({ status_code := 500, data := some [7], pagination := none } : Response Nat) []
              = .fetched dl entry) ∨
          mockGet none "users/y"
              ({ status_code := 500, data := some [7], pagination := none } : Response Nat) []
            = .keyErrorFileCreated "data")) :=
  ⟨(mockGet_error_statuses "users/x"
      { status_code := 404, data := none, pagination := none } [] (by decide)).1 rfl,
    (mockGet_error_statuses "users/y"
      { status_code := 500, data := some [7], pagination := none } [] (by decide)).2
      (by decide)⟩

/-- C9: when a mock-mode miss on an endpoint succeeds, the persisted
entry's `data` is exactly the concatenated data that was returned,
and any later request served from that entry is a cache hit answering
the same data, independent of whatever the network would now
return. -/
theorem mockGet_cache_round_trip {α : Type} (ep : String) (resp : Response α)
    (chain : List (Response α)) (d : List α) (entry : CacheEntry α)
    (h : mockGet none ep resp chain = .fetched d entry) :
    entry.data = d ∧
      ∀ (ep' : String) (resp' : Response α) (chain' : List (Response α)),
        mockGet (some entry) ep' resp' chain' = .hit d := by
  have hdata : entry.data = d := by
    by_cases hne : resp.status_code ≠ 404
    · cases hd : resp.data with
      | none => simp [mockGet, hne, hd] at h
      | some d0 =>
        simp [mockGet, hne, hd] at h
        rw [← h.1, ← h.2]
    · simp [mockGet, hne] at h
  refine ⟨hdata, ?_⟩
  intro ep' resp' chain'
  simp [mockGet, hdata]

/-- C9 witness: a two-page miss on `games` aggregates `[1, 2]`,
persists it, and a second call is a hit returning `[1, 2]` even
though the live data changed. -/
theorem mockGet_cache_round_trip_witness :
    ({ data := [1, 2], pagination := some { size := 1, max := 1 } } :
        CacheEntry Nat).data = [1, 2] ∧
      ∀ (ep' : String) (resp' : Response Nat) (chain' : List (Response Nat)),
        mockGet (some { data := [1, 2], pagination := some { size := 1, max := 1 } })
          ep' resp' chain' = .hit [1, 2] :=
  mockGet_cache_round_trip "games"
    { status_code := 200, data := some [1], pagination := some { size := 1, max := 1 } }
    [{ status_code := 200, data := some [2], pagination := some { size := 1, max := 2 } }]
    [1, 2] { data := [1, 2], pagination := some { size := 1, max := 1 } } (by decide)

/-- On a chain consumed exactly, the pagination loop appends the
`data` of every follow-up response in order. -/
theorem paginate_join {α : Type} :
    ∀ (chain : List (Response α)) (p : Pagination) (acc : List α),
      exactChain p chain = true →
      paginate p chain acc = acc ++ (chain.map (fun r => r.data.getD [])).flatten := by
  intro chain
  induction chain with
  | nil =>
    intro p acc h
    simp [exactChain] at h
    simp [paginate, h]
  | cons r rs ih =>
    intro p acc h
    simp [exactChain] at h
    obtain ⟨h1, h2⟩ := h
    cases hp : r.pagination with
    | none => rw [hp] at h2; simp at h2
    | some p' =>
      cases hd : r.data with
      | none => rw [hp, hd] at h2; simp at h2
      | some d' =>
        rw [hp, hd] at h2
        simp only [] at h2
        simp [paginate, h1, hp, hd, ih p' (acc ++ d') h2, List.append_assoc]

/-- C2 counterexample: on a chain whose follow-up response lacks a
`pagination` field, the loop reads the new `size`/`max` before
appending, so it raises `KeyError` and drops that page's `data`: the
aggregated result is `[0]` (length 1) although the sum of the two
pages' `data` lengths is 2. -/
theorem get_drops_data_of_page_without_pagination :
    get "runs"
        ({ status_code := 200, data := some [0],
            pagination := some { size := 1, max := 1 } } : Response Nat)
        [{ status_code := 200, data := some [5], pagination := none }]
      = .ok [0] ∧
      (({ status_code := 200, data := some [0],
            pagination := some { size := 1, max := 1 } } : Response Nat).data.getD []).length +
        (({ status_code := 200, data := some [5], pagination := none } :
            Response Nat).data.getD []).length = 2 :=
  ⟨rfl, rfl⟩

/-- C2 amended: for a non-mock GET whose response chain is consumed
exactly — every follow-up envelope carries `pagination` and `data`
fields and the loop stops because `size != max` — `get` returns the
concatenation, in order, of the per-page `data` sequences, and the
aggregated length equals the sum of the per-page `data` lengths.
(When a follow-up page lacks the `pagination` field the loop instead
stops before appending that page's data, as the counterexample
shows.) -/
theorem get_aggregates_exact_chain {α : Type} (ep : String) (first : Response α)
    (chain : List (Response α)) (d : List α) (p : Pagination)
    (hs : first.status_code < 400) (hd : first.data = some d)
    (hp : first.pagination = some p) (hc : exactChain p chain = true) :
    get ep first chain = .ok (d ++ (chain.map (fun r => r.data.getD [])).flatten) ∧
      (d ++ (chain.map (fun r => r.data.getD [])).flatten).length =
        d.length + (chain.map (fun r => (r.data.getD []).length)).sum := by
  have hnot : ¬ 400 ≤ first.status_code := by omega
  constructor
  · simp [get, hnot, hd, aggregated, hp, paginate_join chain p d hc]
  · simp [List.length_append, List.length_flatten, List.map_map, Function.comp_def]

/-- C2 amended, witness: a two-page chain (`[1, 2]` then `[3]`, the
first page at the size limit) aggregates to `[1, 2, 3]` of length
`2 + 1`. -/
theorem get_aggregates_exact_chain_witness :
    get "runs" (⟨200, some [1, 2], some ⟨2, 2⟩⟩ : Response Nat)
        [⟨200, some [3], some ⟨1, 2⟩⟩]
      = .ok ([1, 2] ++
          ([(⟨200, some [3], some ⟨1, 2⟩⟩ : Response Nat)].map
            (fun r => r.data.getD [])).flatten) ∧
      (([1, 2] : List Nat) ++
          ([(⟨200, some [3], some ⟨1, 2⟩⟩ : Response Nat)].map
            (fun r => r.data.getD [])).flatten).length =
        ([1, 2] : List Nat).length +
          ([(⟨200, some [3], some ⟨1, 2⟩⟩ : Response Nat)].map
            (fun r => (r.data.getD []).length)).sum :=
  get_aggregates_exact_chain "runs" ⟨200, some [1, 2], some ⟨2, 2⟩⟩
    [⟨200, some [3], some ⟨1, 2⟩⟩]
    [1, 2] ⟨2, 2⟩ (by decide) rfl rfl (by decide)

/-- C5: each of the three mandatory-field checks of `submit_run`
fires, in source order, before any other validation and before any
network interaction: the lookup trace is empty and no request is
built. -/
theorem submit_run_missing_mandatory_fields (f : String → Bool) (a : SubmitArgs) :
    (a.category = none → submit_run f a = ([], .error .noCategory)) ∧
    (a.category ≠ none → a.times = none → submit_run f a = ([], .error .noTimes)) ∧
    (a.category ≠ none → a.times ≠ none → a.platform = none →
      submit_run f a = ([], .error .noPlatform)) := by
  refine ⟨?_, ?_, ?_⟩
  · intro h
    simp [submit_run, h]
  · intro h1 h2
    cases hc : a.category with
    | none => exact absurd hc h1
    | some c => simp [submit_run, hc, h2]
  · intro h1 h2 h3
    cases hc : a.category with
    | none => exact absurd hc h1
    | some c =>
      cases ht : a.times with
      | none => exact absurd ht h2
      | some ts => simp [submit_run, hc, ht, h3]

/-- C5 witness: the three missing-field shapes each produce the
corresponding error with an empty lookup trace. -/
theorem submit_run_missing_mandatory_fields_witness :
    (submit_run (fun _ => false)
        ⟨none, none, none, none, none, none, none, none, none, none, none, false, false⟩
        = ([], .error .noCategory)) ∧
      (submit_run (fun _ => false)
        ⟨some "c", none, none, none, none, none, none, none, none, none, none, false, false⟩
        = ([], .error .noTimes)) ∧
      (submit_run (fun _ => false)
        ⟨some "c", none, some [], none, none, none, none, none, none, none, none, false, false⟩
        = ([], .error .noPlatform)) :=
  ⟨(submit_run_missing_mandatory_fields (fun _ => false)
      ⟨none, none, none, none, none, none, none, none, none, none, none, false, false⟩).1 rfl,
    (submit_run_missing_mandatory_fields (fun _ => false)
      ⟨some "c", none, none, none, none, none, none, none, none, none, none, false, false⟩).2.1
      (by decide) rfl,
    (submit_run_missing_mandatory_fields (fun _ => false)
      ⟨some "c", none, some [], none, none, none, none, none, none, none, none, false, false⟩).2.2
      (by decide) (by decide) rfl⟩

/-- The inner player-entry loop can never raise `NoPlayerFound`:
`get_user` either raises the lookup's `APIRequestException` or
returns a `User` instance, so the `isinstance` test never fails. -/
theorem checkEntries_npf_false (f : String → Bool) :
    ∀ es : List (String × String), optNPF (checkEntries f es).2 = false := by
  intro es
  induction es with
  | nil => rfl
  | cons kv rest ih =>
    obtain ⟨k, v⟩ := kv
    by_cases hrel : k = "rel"
    · by_cases hv : v = "user" ∨ v = "guest"
      · simpa [checkEntries, hrel, hv] using ih
      · simp [checkEntries, hrel, hv, optNPF, SubmitError.isNoPlayerFound]
    · by_cases hid : k = "id"
      · cases hfv : f v with
        | false =>
          simp [checkEntries, hrel, hid, get_user, hfv, optNPF, SubmitError.isNoPlayerFound]
        | true =>
          rcases hce : checkEntries f rest with ⟨tr, r⟩
          rw [hce] at ih
          simpa [checkEntries, hrel, hid, get_user, hfv, UserResult.isUserInstance, hce]
            using ih
      · by_cases hname : k = "name"
        · simpa [checkEntries, hrel, hid, hname] using ih
        · simp [checkEntries, hrel, hid, hname, optNPF, SubmitError.isNoPlayerFound]

/-- The player-list loop can never raise `NoPlayerFound`. -/
theorem checkPlayers_npf_false (f : String → Bool) :
    ∀ ps : List Player, optNPF (checkPlayers f ps).2 = false := by
  intro ps
  induction ps with
  | nil => rfl
  | cons p rest ih =>
    have he := checkEntries_npf_false f p.toDict
    rcases hce : checkEntries f p.toDict with ⟨tr, r⟩
    rw [hce] at he
    cases r with
    | some e => simpa [checkPlayers, hce] using he
    | none =>
      rcases hcp : checkPlayers f rest with ⟨tr', r'⟩
      rw [hcp] at ih
      simpa [checkPlayers, hce, hcp] using ih

/-- The timer loop can never raise `NoPlayerFound`. -/
theorem checkTimes_npf_false :
    ∀ ts : List (String × TimeVal), optNPF (checkTimes ts) = false := by
  intro ts
  induction ts with
  | nil => rfl
  | cons kv rest ih =>
    obtain ⟨k, v⟩ := kv
    by_cases hk : k = "realtime" ∨ k = "realtime_noloads" ∨ k = "ingame"
    · by_cases hv : v.isNumeric = true
      · simpa [checkTimes, hk, hv] using ih
      · simp [checkTimes, hk, hv, optNPF, SubmitError.isNoPlayerFound]
    · simp [checkTimes, hk, optNPF, SubmitError.isNoPlayerFound]

/-- The variable-value loop can never raise `NoPlayerFound`. -/
theorem checkValueDict_npf_false :
    ∀ vd : List (String × String), optNPF (checkValueDict vd) = false := by
  intro vd
  induction vd with
  | nil => rfl
  | cons kv rest ih =>
    obtain ⟨k, v⟩ := kv
    by_cases hk : k = "type"
    · by_cases hv : v = "pre-defined" ∨ v = "user-defined"
      · simpa [checkValueDict, hk, hv] using ih
      · simp [checkValueDict, hk, hv, optNPF, SubmitError.isNoPlayerFound]
    · by_cases hval : k = "value"
      · simpa [checkValueDict, hk, hval] using ih
      · simp [checkValueDict, hk, hval, optNPF, SubmitError.isNoPlayerFound]

/-- The variables loop can never raise `NoPlayerFound`. -/
theorem checkVariables_npf_false :
    ∀ vs : List (String × List (String × String)), optNPF (checkVariables vs) = false := by
  intro vs
  induction vs with
  | nil => rfl
  | cons kv rest ih =>
    obtain ⟨k, vd⟩ := kv
    have hv := checkValueDict_npf_false vd
    cases hcv : checkValueDict vd with
    | some e => rw [hcv] at hv; simpa [checkVariables, hcv] using hv
    | none => simpa [checkVariables, hcv] using ih

/-- `submit_run` can never raise `NoPlayerFound`: every error it can
return comes from a check that cannot produce it. -/
theorem submit_run_npf_false (f : String → Bool) (a : SubmitArgs) :
    excNPF (submit_run f a).2 = false := by
  simp only [submit_run]
  split
  · rfl
  · split
    · rfl
    · split
      · rfl
      · have hts := checkTimes_npf_false (a.times.getD [])
        cases hct : checkTimes (a.times.getD []) with
        | some e =>
          rw [hct] at hts
          simpa [excNPF, optNPF] using hts
        | none =>
          have hpr : optNPF (if listTruthy a.players then
              checkPlayers f (a.players.getD []) else ([], none)).2 = false := by
            split
            · exact checkPlayers_npf_false f (a.players.getD [])
            · rfl
          rcases hpr2 : (if listTruthy a.players then
              checkPlayers f (a.players.getD []) else ([], none)) with ⟨tr, r⟩
          rw [hpr2] at hpr
          cases r with
          | some e => simpa [hpr2, excNPF, optNPF] using hpr
          | none =>
            have hvr : optNPF (if listTruthy a.runVariables then
                checkVariables (a.runVariables.getD []) else none) = false := by
              split
              · exact checkVariables_npf_false (a.runVariables.getD [])
              · rfl
            cases hv2 : (if listTruthy a.runVariables then
                checkVariables (a.runVariables.getD []) else none) with
            | some e =>
              rw [hv2] at hvr
              simpa [hpr2, hv2, excNPF, optNPF] using hvr
            | none => simp [hpr2, hv2, excNPF]

/-- `update_run_players` can never raise `NoPlayerFound` either. -/
theorem update_run_players_npf_false (f : String → Bool) (runId : String)
    (ps : List Player) : excNPF (update_run_players f runId ps).2 = false := by
  have h := checkPlayers_npf_false f ps
  rcases hcp : checkPlayers f ps with ⟨tr, r⟩
  rw [hcp] at h
  cases r with
  | some e => simpa [update_run_players, hcp, excNPF, optNPF] using h
  | none => simp [update_run_players, hcp, excNPF]

/-- C6: a `players` entry with `rel = "user"` and an `id` that does
not resolve makes the call fail with the `APIRequestException`
raised inside the `get_user` lookup — not with the `NoPlayerFound`
validation error, whose raise site is unreachable because `get_user`
either raises or returns a `User` instance; an entry with a key
outside rel/id/name does fail with `InvalidPlayersDictionaryKey`. -/
theorem player_validation_lookup_behaviour :
    (submit_run (fun _ => false)
        ⟨some "c1", some "p1", some [("realtime", .intV 60)], none, none, none,
          some [.pdict [("rel", "user"), ("id", "zzz")]], none, none, none, none,
          false, false⟩
      = (["users/zzz"], .error (.requestError 404 "Not Found" "users/zzz"))) ∧
    (∀ (f : String → Bool) (a : SubmitArgs), excNPF (submit_run f a).2 = false) ∧
    (∀ (f : String → Bool) (runId : String) (ps : List Player),
      excNPF (update_run_players f runId ps).2 = false) ∧
    (submit_run (fun _ => true)
        ⟨some "c1", some "p1", some [("realtime", .intV 60)], none, none, none,
          some [.pdict [("foo", "x")]], none, none, none, none, false, false⟩
      = ([], .error (.invalidPlayersDictionaryKey "foo"))) :=
  ⟨rfl, submit_run_npf_false, update_run_players_npf_false, rfl⟩

/-- A successful `submit_run` puts the caller's original `players`
argument in the payload whenever it was truthy. -/
theorem submit_run_ok_players (f : String → Bool) (a : SubmitArgs) (tr : List String)
    (req : PostRequest) (h : submit_run f a = (tr, .ok req)) :
    req.run.players = if listTruthy a.players then a.players else none := by
  simp only [submit_run] at h
  split at h
  · simp at h
  · split at h
    · simp at h
    · split at h
      · simp at h
      · cases hct : checkTimes (a.times.getD []) with
        | some e => rw [hct] at h; simp at h
        | none =>
          rw [hct] at h
          rcases hpr : (if listTruthy a.players then
              checkPlayers f (a.players.getD []) else ([], none)) with ⟨tr0, r⟩
          rw [hpr] at h
          cases r with
          | some e => simp at h
          | none =>
            cases hvr : (if listTruthy a.runVariables then
                checkVariables (a.runVariables.getD []) else none) with
            | some e => rw [hvr] at h; simp at h
            | none =>
              rw [hvr] at h
              simp only [Prod.mk.injEq, Except.ok.injEq] at h
              rw [← h.2]

/-- C10: the `User`-to-dictionary conversion in the player loops is
loop-local: both `submit_run` and `update_run_players` place the
caller's original `players` list in the outgoing request body, with
`User` entries unconverted. -/
theorem requests_keep_original_players :
    (∀ (f : String → Bool) (a : SubmitArgs) (tr : List String) (req : PostRequest)
        (ps : List Player), submit_run f a = (tr, .ok req) → a.players = some ps →
        listTruthy a.players = true → req.run.players = some ps) ∧
    (∀ (f : String → Bool) (runId : String) (ps : List Player) (tr : List String)
        (req : PlayersPutRequest), update_run_players f runId ps = (tr, .ok req) →
        req.players = ps) := by
  constructor
  · intro f a tr req ps h hps htr
    rw [submit_run_ok_players f a tr req h, htr, if_pos rfl, hps]
  · intro f runId ps tr req h
    rcases hcp : checkPlayers f ps with ⟨tr0, r⟩
    rw [update_run_players, hcp] at h
    cases r with
    | some e => simp at h
    | none =>
      simp only [Prod.mk.injEq, Except.ok.injEq] at h
      rw [← h.2]

/-- C10 witness: a run submitted with a `User` object in `players`
carries that very object, unconverted, in the POSTed payload. -/
theorem requests_keep_original_players_witness :
    ({ endpoint := "runs",
        run :=
          { times := [("realtime", TimeVal.intV 60)],
            players := some [Player.userObj "u1"], runVariables := none,
            category := some "c1", platform := some "p1", level := none,
            date := none, region := none, video := none, comment := none,
            splitsio := none, verified := false, emulated := false } } :
      PostRequest).run.players = some [Player.userObj "u1"] :=
  requests_keep_original_players.1 (fun _ => true)
    ⟨some "c1", some "p1", some [("realtime", TimeVal.intV 60)], none, none, none,
      some [Player.userObj "u1"], none, none, none, none, false, false⟩
    ["users/u1"] _ [Player.userObj "u1"] rfl rfl rfl

/-- The slice `[0::2]` keeps exactly the elements at even indices:
its i-th element is the (2i)-th element of the original list. -/
theorem everyOther_getElem? {α : Type} :
    ∀ (l : List α) (i : Nat), (everyOther l)[i]? = l[2 * i]?
  | [], i => by simp [everyOther]
  | [a], 0 => by simp [everyOther]
  | [a], (i + 1) => by
    simp [everyOther, List.getElem?_eq_none, Nat.mul_succ]
  | a :: b :: rest, 0 => by simp [everyOther]
  | a :: b :: rest, (i + 1) => by
    have ih := everyOther_getElem? rest i
    rw [show 2 * (i + 1) = (2 * i + 1) + 1 by omega]
    simpa [everyOther] using ih

/-- The length of the `[0::2]` slice. -/
theorem everyOther_length {α : Type} :
    ∀ l : List α, (everyOther l).length = (l.length + 1) / 2
  | [] => by simp [everyOther]
  | [a] => by simp [everyOther]
  | a :: b :: rest => by
    have ih := everyOther_length rest
    simp [everyOther, ih]
    omega

/-- The code's slice agrees with the spec's even-index description. -/
theorem everyOther_eq_evenIndexSegments :
    ∀ segs : List String, everyOther segs = evenIndexSegments segs := by
  intro segs
  apply List.ext_getElem?
  intro i
  rw [everyOther_getElem?]
  by_cases h : i < (segs.length + 1) / 2
  · have h2 : 2 * i < segs.length := by omega
    rw [List.getElem?_eq_getElem h2]
    simp [evenIndexSegments, List.getElem?_range, h, List.getD,
      List.getElem?_eq_getElem h2]
  · have h2 : ¬ 2 * i < segs.length := by omega
    rw [List.getElem?_eq_none (by omega)]
    have hl : (evenIndexSegments segs).length = (segs.length + 1) / 2 := by
      simp [evenIndexSegments]
    rw [List.getElem?_eq_none (by omega)]

/-- C7: the mock cache key is the even-index path segments joined
with "."; consequently any two endpoints whose split paths agree on
all even indices — however they differ at the odd, ID-carrying
indices — derive the same cache key. -/
theorem mock_endpoint_even_index_key :
    (∀ e : String,
      mock_endpoint e = String.intercalate "." (evenIndexSegments (pySplit '/' e))) ∧
    (∀ e1 e2 : String,
      (∀ i : Nat, i % 2 = 0 → (pySplit '/' e1)[i]? = (pySplit '/' e2)[i]?) →
      mock_endpoint e1 = mock_endpoint e2) := by
  constructor
  · intro e
    rw [mock_endpoint, everyOther_eq_evenIndexSegments]
  · intro e1 e2 h
    rw [mock_endpoint, mock_endpoint]
    congr 1
    apply List.ext_getElem?
    intro i
    rw [everyOther_getElem?, everyOther_getElem?]
    exact h (2 * i) (by omega)

/-- C7 witness: `users/a` and `users/b` differ only at the odd index
1 and collide on the cache key `users`. -/
theorem mock_endpoint_even_index_key_witness :
    mock_endpoint "users/a" = mock_endpoint "users/b" :=
  mock_endpoint_even_index_key.2 "users/a" "users/b" (by
    intro i hi
    match i with
    | 0 => rfl
    | 1 => simp at hi
    | n + 2 =>
      show (["users", "a"] : List String)[n + 2]? = (["users", "b"] : List String)[n + 2]?
      simp)

end Srcomapi
